import Mathlib

/-!
Verification of the bootstrap behaviour of the
`portable-automation-framework` management-service repository.

The repository consists of eight Python source files, each a variant of the
same bootstrap sequence: create a web-application object (Flask or FastAPI),
attach the four route groups (scenarios, executions, data providers,
AI services), optionally define one or two direct routes, and start an HTTP
listener.  This file gives a shallow embedding of those eight variants and
proves the specification claims about them.
-/

namespace AutomationFramework

/-- A JSON object value, sufficient for the response bodies appearing in the
source: the only JSON literal in the repository is one flat object whose
fields are strings. -/
structure JsonObj where
  fields : List (String × String)
deriving DecidableEq, Repr, BEq

/-- The web framework a given file instantiates. -/
inductive Framework where
  | flask
  | fastapi
deriving DecidableEq, Fintype, Repr, BEq

/-- The four route groups named across the repository. -/
inductive RouteGroup where
  | scenarios
  | executions
  | dataProviders
  | aiServices
deriving DecidableEq, Fintype, Repr, BEq

/-- The eight source files of the repository, each a bootstrap variant. -/
inductive Variant where
  | mainPy          -- src/main.py
  | commonTypes     -- src/types/common_types.py
  | apiProvider     -- src/providers/api_provider.py
  | servicesInit    -- src/services/__init__.py
  | authMiddleware  -- src/api/middleware/auth.py
  | setupScript     -- scripts/setup.py
  | testParserPy    -- tests/unit/test_parser.py
  | testsUnitInit   -- tests/unit/__init__.py
deriving DecidableEq, Fintype, Repr, BEq

/-- Identifier of a directly-defined route handler appearing in the source. -/
inductive HandlerId where
  | healthCheck     -- health_check in src/main.py
  | index           -- index in src/types/common_types.py
deriving DecidableEq, Fintype, Repr, BEq

/-- What a handler returns in the source: a Python dict (serialised to JSON
by Flask) or a plain string. -/
inductive HandlerBody where
  | jsonDict : JsonObj → HandlerBody
  | text : String → HandlerBody
deriving DecidableEq, Repr, BEq

/-- One step of a variant's bootstrap sequence, in program order
(module-level statements followed by the statements of its
`__main__` block / startup routine). -/
inductive Step where
  | createApp : Framework → Step
  | enableCors : Step
  | loadConfig : Step
  | initLogger : Step
  | initRunner : Step
  | attach : RouteGroup → Option String → Step
  | defineRoute : String → HandlerId → Step
  | startListener : Step
deriving DecidableEq, Repr, BEq

/-- The bootstrap sequence of each source file, transcribed statement by
statement from the source. -/
def steps : Variant → List Step
  | .mainPy =>
      [ .createApp .flask, .enableCors, .loadConfig, .initLogger,
        .attach .scenarios (some "/api/v1/scenarios"),
        .attach .executions (some "/api/v1/executions"),
        .attach .dataProviders (some "/api/v1/data-providers"),
        .attach .aiServices (some "/api/v1/ai"),
        .defineRoute "/health" .healthCheck,
        .startListener ]
  | .commonTypes =>
      [ .createApp .flask,
        .attach .scenarios none, .attach .executions none,
        .attach .dataProviders none, .attach .aiServices none,
        .defineRoute "/" .index,
        .initRunner,
        .startListener ]
  | .apiProvider =>
      [ .createApp .flask,
        .attach .scenarios none, .attach .executions none,
        .attach .dataProviders none, .attach .aiServices none,
        .startListener ]
  | .servicesInit =>
      [ .createApp .flask,
        .attach .scenarios none, .attach .executions none,
        .attach .dataProviders none, .attach .aiServices none,
        .initLogger,
        .startListener ]
  | .authMiddleware =>
      [ .createApp .fastapi,
        .attach .scenarios (some "/scenarios"),
        .attach .executions (some "/executions"),
        .attach .dataProviders (some "/data-providers"),
        .attach .aiServices (some "/ai-services"),
        .startListener ]
  | .setupScript =>
      [ .createApp .fastapi,
        .attach .scenarios none, .attach .executions none,
        .attach .dataProviders none, .attach .aiServices none,
        .startListener ]
  | .testParserPy =>
      [ .createApp .fastapi,
        .attach .scenarios none, .attach .executions none,
        .attach .dataProviders none, .attach .aiServices none,
        .startListener ]
  | .testsUnitInit =>
      [ .createApp .flask, .initLogger,
        .attach .scenarios none, .attach .executions none,
        .attach .dataProviders none, .attach .aiServices none,
        .startListener ]

/-- The framework a variant instantiates. -/
def frameworkOf : Variant → Framework
  | .mainPy | .commonTypes | .apiProvider | .servicesInit | .testsUnitInit =>
      .flask
  | .authMiddleware | .setupScript | .testParserPy => .fastapi

/-- The mount path a variant passes when attaching a route group:
`none` when the variant found no `attach` for the group, `some none` when it
attaches the group with no path argument, `some (some p)` when it attaches it
under path `p`. -/
def mountOf (v : Variant) (g : RouteGroup) : Option (Option String) :=
  (steps v).findSome? fun s =>
    match s with
    | .attach g2 m => if g2 == g then some m else none
    | _ => none

/-- The direct routes (path, handler) a variant defines, transcribed from its
decorated route functions. -/
def routeIdsOf (v : Variant) : List (String × HandlerId) :=
  (steps v).filterMap fun s =>
    match s with
    | .defineRoute p h => some (p, h)
    | _ => none

/-- A value stored in the runtime configuration. -/
inductive ConfigVal where
  | s : String → ConfigVal
  | n : Nat → ConfigVal
  | b : Bool → ConfigVal
deriving DecidableEq, Repr, BEq

/-- Modelled from the spec: the `Config` class (`utils.config`) is imported by
`src/main.py` but its implementation is absent from the provided source.  The
spec describes it as a "Configuration loader (referenced, not defined):
produces a mapping of runtime settings (host, port, debug flag)", read through
`config.get(key, default)` which yields the stored value for `key` or the
supplied default. -/
structure Config where
  entries : List (String × ConfigVal)
deriving DecidableEq, Repr, BEq

/-- The stored value for a key, if any. -/
def Config.lookupVal (c : Config) (k : String) : Option ConfigVal :=
  (c.entries.find? fun p => p.1 == k).map fun p => p.2

/-- `config.get(key, default)` for a string-valued setting. -/
def Config.getStr (c : Config) (k d : String) : String :=
  match c.lookupVal k with
  | some (.s v) => v
  | _ => d

/-- `config.get(key, default)` for a numeric setting. -/
def Config.getNat (c : Config) (k : String) (d : Nat) : Nat :=
  match c.lookupVal k with
  | some (.n v) => v
  | _ => d

/-- `config.get(key, default)` for a boolean setting. -/
def Config.getBool (c : Config) (k : String) (d : Bool) : Bool :=
  match c.lookupVal k with
  | some (.b v) => v
  | _ => d

/-- The arguments a variant passes to its listener-start call
(`app.run` for Flask, `uvicorn.run` for FastAPI); `none` means the argument
is not passed. -/
structure RunCall where
  host : Option String
  port : Option Nat
  debug : Option Bool
deriving DecidableEq, Repr, BEq

/-- The listener-start call of each variant, transcribed from the source.
Only `src/main.py` draws its arguments from the configuration. -/
def runCallOf : Variant → Config → RunCall
  | .mainPy, cfg =>
      { host := some (cfg.getStr "server.host" "0.0.0.0"),
        port := some (cfg.getNat "server.port" 8000),
        debug := some (cfg.getBool "server.debug" false) }
  | .commonTypes, _ => { host := none, port := none, debug := some true }
  | .apiProvider, _ => { host := none, port := none, debug := some true }
  | .servicesInit, _ => { host := none, port := none, debug := some true }
  | .testsUnitInit, _ => { host := none, port := none, debug := some true }
  | .authMiddleware, _ =>
      { host := some "0.0.0.0", port := some 8000, debug := none }
  | .setupScript, _ =>
      { host := some "0.0.0.0", port := some 8000, debug := none }
  | .testParserPy, _ =>
      { host := some "0.0.0.0", port := some 8000, debug := none }

/-- Modelled from framework documentation: the host Flask's `app.run`
(respectively uvicorn's `run`) binds when no `host` argument is passed.
Both frameworks document `127.0.0.1` as that default. -/
def defaultHost : Framework → String
  | .flask => "127.0.0.1"
  | .fastapi => "127.0.0.1"

/-- Modelled from framework documentation: the port Flask's `app.run`
(respectively uvicorn's `run`) binds when no `port` argument is passed:
5000 for Flask, 8000 for uvicorn. -/
def defaultPort : Framework → Nat
  | .flask => 5000
  | .fastapi => 8000

/-- The host/port the listener of a variant binds under configuration `cfg`:
the explicitly passed argument when present, otherwise the framework
default. -/
def effectiveBind (v : Variant) (cfg : Config) : String × Nat :=
  let c := runCallOf v cfg
  let fw := frameworkOf v
  (c.host.getD (defaultHost fw), c.port.getD (defaultPort fw))

/-- An HTTP request, as far as the handlers in the source can observe one. -/
structure HttpRequest where
  method : String
  path : String
  headers : List (String × String)
  body : String
deriving DecidableEq, Repr, BEq

/-- The state of upstream dependencies the service could in principle
consult: an availability flag per named dependency.  No handler in the source
reads any of it. -/
structure UpstreamState where
  dependencies : List (String × Bool)
deriving DecidableEq, Repr, BEq

/-- The dict literal returned by `health_check` in `src/main.py`. -/
def healthPayload : JsonObj :=
  { fields :=
      [ ("status", "healthy"),
        ("service", "automation-framework-management") ] }

/-- The route handlers defined directly in the source.  `health_check`
(src/main.py) returns a dict literal; `index` (src/types/common_types.py)
returns a string literal.  Neither reads the request or any upstream
state. -/
def handlerFun : HandlerId → HttpRequest → UpstreamState → HandlerBody
  | .healthCheck, _, _ => .jsonDict healthPayload
  | .index, _, _ => .text "Welcome to the Management Service!"

/-- An HTTP response: status code and body. -/
structure HttpResponse where
  status : Nat
  body : HandlerBody
deriving DecidableEq, Repr, BEq

/-- Modelled from framework documentation: Flask turns a dict return value
into a JSON response with status 200, and a string return value into a text
response with status 200. -/
def flaskResponse (b : HandlerBody) : HttpResponse :=
  { status := 200, body := b }

/-- Dispatch a request against the routes a variant defines directly:
the response of the first route whose path matches, `none` when no direct
route matches. -/
def dispatch (v : Variant) (req : HttpRequest) (st : UpstreamState) :
    Option HttpResponse :=
  ((routeIdsOf v).find? fun p => p.1 == req.path).map fun p =>
    flaskResponse (handlerFun p.2 req st)

/-- Severity of a log line; the referenced `Logger` exposes `info` and
`error` methods. -/
inductive LogLevel where
  | info
  | error
deriving DecidableEq, Fintype, Repr, BEq

/-- One emitted log line. -/
structure LogLine where
  level : LogLevel
  msg : String
deriving DecidableEq, Repr, BEq

/-- Result of executing a straight-line block of statements: the log lines it
emitted, and the exception it raised, if any (statements after the raising
one do not execute, so their logs are absent). -/
structure BlockResult where
  logs : List LogLine
  exc : Option String
deriving DecidableEq, Repr, BEq

/-- A `logger.info(m)` statement. -/
def logInfo (m : String) : BlockResult :=
  { logs := [{ level := .info, msg := m }], exc := none }

/-- The listener-start statement; `runExc` says whether it raises and with
which message. -/
def runListener (runExc : Option String) : BlockResult :=
  { logs := [], exc := runExc }

/-- Sequence two statements: the second executes only when the first did not
raise; an exception propagates. -/
def BlockResult.andThen (r : BlockResult) (next : Unit → BlockResult) :
    BlockResult :=
  match r.exc with
  | some _ => r
  | none =>
      let n := next ()
      { logs := r.logs ++ n.logs, exc := n.exc }

/-- How a program run ends: normal completion, a `sys.exit(code)` call, or an
exception that no handler caught.  Each carries the log lines emitted. -/
inductive Outcome where
  | completed : List LogLine → Outcome
  | exited : List LogLine → Nat → Outcome
  | uncaught : List LogLine → String → Outcome
deriving DecidableEq, Repr, BEq

/-- The log lines an outcome carries. -/
def Outcome.logs : Outcome → List LogLine
  | .completed ls => ls
  | .exited ls _ => ls
  | .uncaught ls _ => ls

/-- The number of error-level log lines an outcome carries. -/
def Outcome.errorCount (o : Outcome) : Nat :=
  o.logs.countP fun l => l.level == .error

/-- The exit status of an outcome: `some code` only when the program called
`sys.exit(code)`. -/
def Outcome.exitStatus : Outcome → Option Nat
  | .completed _ => none
  | .exited _ code => some code
  | .uncaught _ _ => none

/-- `start_management_service` from `src/main.py` (lines 33-44): inside a
`try` block, log the starting message, call `app.run` (which may raise), log
the success message; the generic `except` clause logs
`Failed to start management service: <e>` at error level and calls
`sys.exit(1)`. -/
def start_management_service (runExc : Option String) : Outcome :=
  let body :=
    (logInfo "Starting automation framework management service...").andThen
      fun _ =>
        (runListener runExc).andThen fun _ =>
          logInfo "Management service started successfully."
  match body.exc with
  | none => .completed body.logs
  | some e =>
      .exited
        (body.logs ++
          [{ level := .error,
             msg := "Failed to start management service: " ++ e }]) 1

/-- `start_management_service` from `tests/unit/__init__.py` (lines 23-28):
inside a `try` block, call `app.run`; the generic `except` clause logs
`Failed to start the management service: <e>` at error level and calls
`sys.exit(1)`. -/
def unit_start_management_service (runExc : Option String) : Outcome :=
  let body := runListener runExc
  match body.exc with
  | none => .completed body.logs
  | some e =>
      .exited
        (body.logs ++
          [{ level := .error,
             msg := "Failed to start the management service: " ++ e }]) 1

/-- The `__main__` block of `src/services/__init__.py` (lines 21-29): build
the app, log the starting message outside the `try`, call `app.run` inside
it; the generic `except` clause logs `Error starting the service: <e>` at
error level and calls `sys.exit(1)`. -/
def services_main (runExc : Option String) : Outcome :=
  let before := logInfo "Starting Management Service..."
  let body := runListener runExc
  match body.exc with
  | none => .completed (before.logs ++ body.logs)
  | some e =>
      .exited
        (before.logs ++ body.logs ++
          [{ level := .error,
             msg := "Error starting the service: " ++ e }]) 1

/-- The variants that define a named startup routine
(`start_management_service`), paired with its behaviour. -/
def startupRoutine : Variant → Option (Option String → Outcome)
  | .mainPy => some start_management_service
  | .testsUnitInit => some unit_start_management_service
  | _ => none

/-- The whole program `src/main.py`: the module-level statements
(`Config()`, `Logger()`, the four `register_blueprint` calls) execute at
module-load time, outside any exception handler; `importExc` says whether
one of them raises.  Only afterwards does `__main__` invoke
`start_management_service`, whose `try` block covers just its own
statements. -/
def mainPyProgram (importExc : Option String) (runExc : Option String) :
    Outcome :=
  match importExc with
  | some e => .uncaught [] e
  | none => start_management_service runExc

/-- The startup outcome of a variant that defines a startup routine, given
whether the listener-start call raises. -/
def startupOutcome (v : Variant) (runExc : Option String) : Option Outcome :=
  (startupRoutine v).map fun f => f runExc

/-- Whether one of the given steps attaches route group `g`. -/
def attachedIn (l : List Step) (g : RouteGroup) : Bool :=
  l.any fun s =>
    match s with
    | .attach g2 _ => g2 == g
    | _ => false

/-- Walk a bootstrap sequence (`seen` holds the steps already executed) and
check that every listener start is preceded by attachments of all four route
groups. -/
def listenerAfterAttachments (seen : List Step) : List Step → Bool
  | [] => true
  | s :: rest =>
      (match s with
       | .startListener =>
           [RouteGroup.scenarios, .executions, .dataProviders,
            .aiServices].all (attachedIn seen)
       | _ => true) &&
      listenerAfterAttachments (seen ++ [s]) rest

/-- Whether a variant defines a direct route for the root path. -/
def registersRoot (v : Variant) : Bool :=
  (routeIdsOf v).any fun p => p.1 == "/"

/-- C1: every GET request for the path `/health` dispatched against the
application of `src/main.py` yields status 200 with body exactly the JSON
object with fields status = healthy and
service = automation-framework-management. -/
theorem health_endpoint_literal_payload (req : HttpRequest)
    (st : UpstreamState) (hm : req.method = "GET")
    (hp : req.path = "/health") :
    dispatch .mainPy req st =
      some { status := 200, body := .jsonDict healthPayload } ∧
    healthPayload =
      { fields :=
          [ ("status", "healthy"),
            ("service", "automation-framework-management") ] } := by
  obtain ⟨m, p, hs, b⟩ := req
  simp only at hm hp
  subst hm hp
  exact ⟨rfl, rfl⟩

/-- Witness for C1 at a concrete request. -/
theorem health_endpoint_literal_payload_witness :
    dispatch .mainPy
        { method := "GET", path := "/health", headers := [], body := "" }
        { dependencies := [] } =
      some { status := 200, body := .jsonDict healthPayload } ∧
    healthPayload =
      { fields :=
          [ ("status", "healthy"),
            ("service", "automation-framework-management") ] } :=
  health_endpoint_literal_payload
    { method := "GET", path := "/health", headers := [], body := "" }
    { dependencies := [] } rfl rfl

/-- C2: in every variant that defines a startup routine
(`start_management_service`), an exception raised by the listener-start call
produces exactly one error-level log line and process exit status 1. -/
theorem startup_failure_logs_one_error_exits_one (v : Variant) (e : String)
    (o : Outcome) (h : startupOutcome v (some e) = some o) :
    o.errorCount = 1 ∧ o.exitStatus = some 1 := by
  cases v <;> simp only [startupOutcome, startupRoutine, Option.map] at h <;>
    cases h <;> exact ⟨rfl, rfl⟩

/-- Witness for C2 at the startup routine of `src/main.py` and a concrete
exception. -/
theorem startup_failure_logs_one_error_exits_one_witness :
    startupOutcome .mainPy (some "port in use") =
        some (start_management_service (some "port in use")) ∧
    (start_management_service (some "port in use")).errorCount = 1 ∧
    (start_management_service (some "port in use")).exitStatus = some 1 :=
  ⟨rfl,
    startup_failure_logs_one_error_exits_one .mainPy "port in use"
      (start_management_service (some "port in use")) rfl⟩

/-- C3 counterexample: `src/types/common_types.py` starts its listener with
`app.run(debug=True)`, passing neither host nor port; under an empty
configuration it binds the Flask default 127.0.0.1:5000, not 0.0.0.0:8000,
so the claim fails for this variant. -/
theorem default_bind_counterexample :
    effectiveBind .commonTypes { entries := [] } ≠ ("0.0.0.0", 8000) ∧
    effectiveBind .commonTypes { entries := [] } = ("127.0.0.1", 5000) ∧
    (runCallOf .commonTypes { entries := [] }).host = none ∧
    (runCallOf .commonTypes { entries := [] }).port = none := by decide

/-- C3 amended: when the configuration supplies no host and no port,
`src/main.py` and the three uvicorn variants bind 0.0.0.0:8000, while the
four Flask variants that call `app.run(debug=True)` pass no host and no port
and bind the framework default 127.0.0.1:5000 instead. -/
theorem default_bind_by_variant (cfg : Config)
    (hh : cfg.lookupVal "server.host" = none)
    (hp : cfg.lookupVal "server.port" = none) :
    effectiveBind .mainPy cfg = ("0.0.0.0", 8000) ∧
    effectiveBind .authMiddleware cfg = ("0.0.0.0", 8000) ∧
    effectiveBind .setupScript cfg = ("0.0.0.0", 8000) ∧
    effectiveBind .testParserPy cfg = ("0.0.0.0", 8000) ∧
    (runCallOf .commonTypes cfg).host = none ∧
    (runCallOf .commonTypes cfg).port = none ∧
    effectiveBind .commonTypes cfg = ("127.0.0.1", 5000) ∧
    effectiveBind .apiProvider cfg = ("127.0.0.1", 5000) ∧
    effectiveBind .servicesInit cfg = ("127.0.0.1", 5000) ∧
    effectiveBind .testsUnitInit cfg = ("127.0.0.1", 5000) := by
  refine ⟨?_, rfl, rfl, rfl, rfl, rfl, rfl, rfl, rfl, rfl⟩
  simp [effectiveBind, runCallOf, Config.getStr, Config.getNat, hh, hp,
    frameworkOf]

/-- Witness for the amended C3 at the empty configuration. -/
theorem default_bind_by_variant_witness :
    effectiveBind .mainPy { entries := [] } = ("0.0.0.0", 8000) ∧
    effectiveBind .authMiddleware { entries := [] } = ("0.0.0.0", 8000) ∧
    effectiveBind .setupScript { entries := [] } = ("0.0.0.0", 8000) ∧
    effectiveBind .testParserPy { entries := [] } = ("0.0.0.0", 8000) ∧
    (runCallOf .commonTypes { entries := [] }).host = none ∧
    (runCallOf .commonTypes { entries := [] }).port = none ∧
    effectiveBind .commonTypes { entries := [] } = ("127.0.0.1", 5000) ∧
    effectiveBind .apiProvider { entries := [] } = ("127.0.0.1", 5000) ∧
    effectiveBind .servicesInit { entries := [] } = ("127.0.0.1", 5000) ∧
    effectiveBind .testsUnitInit { entries := [] } = ("127.0.0.1", 5000) :=
  default_bind_by_variant { entries := [] } rfl rfl

/-- C4: in every variant the listener is started only after all four route
groups have been attached. -/
theorem listener_after_attachments_all_variants :
    ∀ v : Variant, listenerAfterAttachments [] (steps v) = true := by decide

/-- Witness for C4 at the `src/main.py` variant. -/
theorem listener_after_attachments_all_variants_witness :
    listenerAfterAttachments [] (steps .mainPy) = true :=
  listener_after_attachments_all_variants .mainPy

/-- C5: exactly one variant, `src/types/common_types.py`, registers a route
for the root path, and its handler returns the plain-text welcome message. -/
theorem root_route_only_common_types :
    (∀ v : Variant, registersRoot v = true ↔ v = .commonTypes) ∧
    routeIdsOf .commonTypes = [("/", .index)] ∧
    ∀ req st, handlerFun .index req st =
      .text "Welcome to the Management Service!" :=
  ⟨by decide, rfl, fun _ _ => rfl⟩

/-- Witness for C5 at a concrete request. -/
theorem root_route_only_common_types_witness :
    handlerFun .index
        { method := "GET", path := "/", headers := [], body := "" }
        { dependencies := [] } =
      .text "Welcome to the Management Service!" :=
  root_route_only_common_types.2.2
    { method := "GET", path := "/", headers := [], body := "" }
    { dependencies := [] }

/-- C6: `src/api/middleware/auth.py` mounts the four groups at /scenarios,
/executions, /data-providers and /ai-services; `src/main.py` mounts each
group under a path beginning with /api/v1/; every other variant attaches the
groups with no mount path. -/
theorem mount_convention_by_variant :
    (mountOf .authMiddleware .scenarios = some (some "/scenarios") ∧
     mountOf .authMiddleware .executions = some (some "/executions") ∧
     mountOf .authMiddleware .dataProviders =
       some (some "/data-providers") ∧
     mountOf .authMiddleware .aiServices = some (some "/ai-services")) ∧
    (mountOf .mainPy .scenarios = some (some ("/api/v1/" ++ "scenarios")) ∧
     mountOf .mainPy .executions = some (some ("/api/v1/" ++ "executions")) ∧
     mountOf .mainPy .dataProviders =
       some (some ("/api/v1/" ++ "data-providers")) ∧
     mountOf .mainPy .aiServices = some (some ("/api/v1/" ++ "ai"))) ∧
    (∀ v : Variant, v ≠ .mainPy → v ≠ .authMiddleware →
      ∀ g : RouteGroup, mountOf v g = some none) := by decide

/-- Witness for C6: a concrete unprefixed variant and group. -/
theorem mount_convention_by_variant_witness :
    mountOf .setupScript .scenarios = some none :=
  mount_convention_by_variant.2.2 .setupScript (by decide) (by decide)
    .scenarios

/-- C7: the health handler is deterministic and independent of the request
content and of any upstream state: any two invocations, over any two states,
agree, and the result is the constant health payload. -/
theorem health_handler_state_independent :
    (∀ r1 s1 r2 s2,
      handlerFun .healthCheck r1 s1 = handlerFun .healthCheck r2 s2) ∧
    ∀ r s, handlerFun .healthCheck r s = .jsonDict healthPayload :=
  ⟨fun _ _ _ _ => rfl, fun _ _ => rfl⟩

/-- Witness for C7: two concrete invocations with different requests and
different upstream states agree. -/
theorem health_handler_state_independent_witness :
    handlerFun .healthCheck
        { method := "GET", path := "/health", headers := [], body := "" }
        { dependencies := [("database", false)] } =
      handlerFun .healthCheck
        { method := "POST", path := "/health",
          headers := [("Accept", "text/html")], body := "ignored" }
        { dependencies := [] } :=
  health_handler_state_independent.1
    { method := "GET", path := "/health", headers := [], body := "" }
    { dependencies := [("database", false)] }
    { method := "POST", path := "/health",
      headers := [("Accept", "text/html")], body := "ignored" }
    { dependencies := [] }

/-- C8: an exception raised at import time of `src/main.py` (during
`Config()`, `Logger()` or blueprint registration) escapes the startup
routine's handler: the program ends with an uncaught exception, no
error-level log line and no exit status; only when the import phase succeeds
does the program behave as `start_management_service`. -/
theorem import_errors_escape_handler (e : String) (r : Option String) :
    mainPyProgram (some e) r = .uncaught [] e ∧
    (mainPyProgram (some e) r).errorCount = 0 ∧
    (mainPyProgram (some e) r).exitStatus = none ∧
    mainPyProgram none r = start_management_service r :=
  ⟨rfl, rfl, rfl, rfl⟩

/-- Witness for C8 at a concrete import-time exception. -/
theorem import_errors_escape_handler_witness :
    mainPyProgram (some "config file missing") none =
        .uncaught [] "config file missing" ∧
    (mainPyProgram (some "config file missing") none).errorCount = 0 ∧
    (mainPyProgram (some "config file missing") none).exitStatus = none ∧
    mainPyProgram none none = start_management_service none :=
  import_errors_escape_handler "config file missing" none

/-- C9: in `src/main.py` the AI services group is mounted at /api/v1/ai, not
/api/v1/ai-services, while the other three groups are mounted at the paths
matching their resource names. -/
theorem ai_services_mounted_at_api_v1_ai :
    mountOf .mainPy .aiServices = some (some "/api/v1/ai") ∧
    mountOf .mainPy .aiServices ≠ some (some "/api/v1/ai-services") ∧
    mountOf .mainPy .scenarios = some (some "/api/v1/scenarios") ∧
    mountOf .mainPy .executions = some (some "/api/v1/executions") ∧
    mountOf .mainPy .dataProviders =
      some (some "/api/v1/data-providers") := by decide

/-- C10: every Flask variant other than `src/main.py` starts its listener
with `app.run(debug=True)`: debug mode enabled, and neither a host nor a
port argument passed. -/
theorem flask_variants_debug_run_no_bind (cfg : Config) (v : Variant)
    (hv : v ≠ .mainPy) (hf : frameworkOf v = .flask) :
    runCallOf v cfg =
      { host := none, port := none, debug := some true } := by
  cases v
  · exact absurd rfl hv
  · rfl
  · rfl
  · rfl
  · exact absurd hf (by decide)
  · exact absurd hf (by decide)
  · exact absurd hf (by decide)
  · rfl

/-- Witness for C10 at a concrete variant and configuration. -/
theorem flask_variants_debug_run_no_bind_witness :
    runCallOf .commonTypes { entries := [] } =
      { host := none, port := none, debug := some true } :=
  flask_variants_debug_run_no_bind { entries := [] } .commonTypes
    (by decide) rfl

end AutomationFramework
